import Mathlib

/-!
Verification of the gear-clock animation script (src/script.js).

The script procedurally generates SVG gear outlines (`makeGearPath`), builds a
fixed train of three gears plus a central pinion (`buildGears`), computes clock
hand angles from the current time (`getClockAngles`), and each frame derives the
pinion rotation from the minute angle and each gear's smoothed rotation from the
mesh ratio (`loop`).

Numeric values are modelled as exact rationals (the script's arithmetic is
plain JavaScript number arithmetic on small decimal constants); angles of gear
vertices are kept as fractions of a full turn, with the radian measure and the
cartesian coordinates (which need `cos`/`sin`) expressed over the reals.
-/

/-- One polar radius of `makeGearPath` (src/script.js lines 48-53): vertex
index `i` is classified by `i % 4` into flank (`inner + toothDepth*0.45`),
tip (`outer = r + toothDepth`), flank again, and root (`inner * 0.68`). -/
def gearRadius (r toothDepth : ℚ) (i : ℕ) : ℚ :=
  if i % 4 = 0 then r + toothDepth * (45/100)
  else if i % 4 = 1 then r + toothDepth
  else if i % 4 = 2 then r + toothDepth * (45/100)
  else r * (68/100)

/-- The polar vertex list of `makeGearPath` (src/script.js lines 42-57):
`steps = teeth * 4` vertices; vertex `i` has radius `gearRadius r toothDepth i`
and angle `theta = (i / steps) * 2π`, recorded here as the fraction of a full
turn `i / steps`. -/
def makeGearPathPolar (teeth : ℕ) (r toothDepth : ℚ) : List (ℚ × ℚ) :=
  (List.range (teeth * 4)).map fun i =>
    (gearRadius r toothDepth i, (i : ℚ) / ((teeth * 4 : ℕ) : ℚ))

/-- Radian measure of a vertex angle stored as a fraction of a full turn:
`theta = (i / steps) * Math.PI * 2` (src/script.js line 45). -/
noncomputable def vertexTheta (frac : ℚ) : ℝ := (frac : ℝ) * (Real.pi * 2)

/-- Cartesian coordinates of a polar vertex:
`x = radius * cos(theta)`, `y = radius * sin(theta)` (src/script.js
lines 54-55). -/
noncomputable def vertexXY (rho frac : ℚ) : ℝ × ℝ :=
  ((rho : ℝ) * Real.cos (vertexTheta frac), (rho : ℝ) * Real.sin (vertexTheta frac))

/-- JavaScript's `x.toFixed(2)` as used on every emitted coordinate
(src/script.js line 56): round to the nearest multiple of `1/100`. -/
noncomputable def toFixed2 (x : ℝ) : ℝ := ((round (x * 100) : ℤ) : ℝ) / 100

/-- The clock angles computed each frame (src/script.js lines 112-121). -/
structure ClockAngles where
  secondAngle : ℚ
  minuteAngle : ℚ
  hourAngle : ℚ
  deriving Repr, DecidableEq

/-- `getClockAngles` (src/script.js lines 112-121), over the time components
`hours`, `minutes`, `seconds`, `milliseconds` of the current date. -/
def getClockAngles (hours minutes seconds ms : ℕ) : ClockAngles :=
  let s : ℚ := seconds
  let m : ℚ := minutes
  let h : ℚ := ((hours % 12 : ℕ) : ℚ)
  { secondAngle := (s + (ms : ℚ) / 1000) * 6
    minuteAngle := (m + s / 60 + (ms : ℚ) / 60000) * 6
    hourAngle := (h + m / 60 + s / 3600) * 30 }

/-- A gear element as built by `makeGearPath`/`buildGears`: tooth count, radii,
placement (`cx`, `cy`) and the `data-rot` attribute holding the persisted
rotation (`none` models an absent or non-numeric attribute, which the loop's
`parseFloat(...) || 0` fallback turns into `0`). -/
structure GearObj where
  id : String
  teeth : ℕ
  r : ℚ
  toothDepth : ℚ
  centerRadius : ℚ
  cx : ℚ
  cy : ℚ
  dataRot : Option ℚ
  deriving Repr, DecidableEq

/-- One row of the fixed configuration table in `buildGears`
(src/script.js lines 78-82). -/
structure GearConfig where
  id : String
  teeth : ℕ
  r : ℚ
  toothDepth : ℚ
  cx : ℚ
  cy : ℚ
  deriving Repr, DecidableEq

/-- The fixed gear configuration (src/script.js lines 78-82). -/
def gearConfigList : List GearConfig :=
  [ { id := "g1", teeth := 44, r := 64, toothDepth := 9, cx := -28, cy := 30 }
  , { id := "g2", teeth := 22, r := 34, toothDepth := 7, cx := 64, cy := 20 }
  , { id := "g3", teeth := 14, r := 24, toothDepth := 6, cx := 38, cy := -82 } ]

/-- Center-disk radius `Math.max(8, Math.round(c.r * 0.28))`
(src/script.js line 86); JavaScript's `Math.round` is `⌊x + 1/2⌋`, which is
Mathlib's `round`. -/
def centerRadiusOf (r : ℚ) : ℚ := max 8 ((round (r * (28/100)) : ℤ) : ℚ)

/-- Building one gear object from a configuration row (src/script.js
lines 85-94): `makeGearPath(c.teeth, c.r, c.toothDepth, max(8, round(c.r*0.28)))`
plus the stored placement; a freshly built group has no `data-rot` attribute. -/
def mkGearObj (c : GearConfig) : GearObj :=
  { id := c.id, teeth := c.teeth, r := c.r, toothDepth := c.toothDepth,
    centerRadius := centerRadiusOf c.r, cx := c.cx, cy := c.cy, dataRot := none }

/-- The gear list built from a configuration; `buildGears` performs no
validation of tooth counts (src/script.js lines 85-95), so this map is total
and has no error outcome. -/
def buildFromConfig (cfg : List GearConfig) : List GearObj := cfg.map mkGearObj

/-- The gear train returned by `buildGears` (src/script.js lines 74-107). -/
structure Train where
  gears : List GearObj
  pinion : GearObj
  deriving Repr, DecidableEq

/-- `buildGears` (src/script.js lines 74-107): the three configured gears plus
the hidden pinion `makeGearPath(10, 8, 4, 5)` at center `(0, 0)`. -/
def buildGears : Train :=
  { gears := buildFromConfig gearConfigList
    pinion := { id := "pinion", teeth := 10, r := 8, toothDepth := 4,
                centerRadius := 5, cx := 0, cy := 0, dataRot := none } }

/-- `buildGears` preceded by its first statement `gearContainer.innerHTML = ""`
(src/script.js line 75): the prior contents of the gear container are cleared
and play no role; the result is the fresh element list and the train. -/
def buildGearsInto (_prior : List GearObj) : List GearObj × Train :=
  (buildGears.gears ++ [buildGears.pinion], buildGears)

/-- The mesh-ratio target of the loop (src/script.js line 171):
`target = -pinionTurn * (pinionTeeth / gearTeeth)`. -/
def meshTarget (pinionTurn pinionTeeth : ℚ) (teeth : ℕ) : ℚ :=
  -pinionTurn * (pinionTeeth / (teeth : ℚ))

/-- The exponential smoothing step (src/script.js line 175):
`next = cur + (target - cur) * 0.14`. -/
def smoothNext (target cur : ℚ) : ℚ := cur + (target - cur) * (14/100)

/-- `n` iterations of the smoothing step against a constant target. -/
def smoothIter (target cur : ℚ) : ℕ → ℚ
  | 0 => cur
  | n + 1 => smoothNext target (smoothIter target cur n)

/-- The per-gear update of one running frame (src/script.js lines 169-178):
read `cur` from `data-rot` (0 when absent), smooth toward the mesh target, and
persist the result back into `data-rot`. -/
def gearStep (pinionTurn pinionTeeth : ℚ) (g : GearObj) : GearObj :=
  { g with
      dataRot := some (smoothNext (meshTarget pinionTurn pinionTeeth g.teeth)
        (g.dataRot.getD 0)) }

/-- The mutable state touched by `loop`: the built train, the pinion's applied
rotation, the two hand rotations, and the `running` flag. -/
structure WatchState where
  gears : List GearObj
  pinion : GearObj
  pinionRot : ℚ
  minuteHand : ℚ
  hourHand : ℚ
  running : Bool
  deriving Repr, DecidableEq

/-- One frame of `loop` (src/script.js lines 146-182): the hands are always
set from the clock angles; only when `running` is the pinion slaved to the
minute angle (`pinionTeeth = pinion.teeth || 10`, with `||` reading a zero
tooth count as falsy) and every gear smoothed toward its mesh target. -/
def loopStep (angles : ClockAngles) (st : WatchState) : WatchState :=
  if st.running then
    let driverDeg := angles.minuteAngle
    let pinionTeeth : ℚ := if st.pinion.teeth = 0 then 10 else (st.pinion.teeth : ℚ)
    let pinionTurn := driverDeg
    { st with minuteHand := angles.minuteAngle, hourHand := angles.hourAngle,
              pinionRot := pinionTurn,
              gears := st.gears.map (gearStep pinionTurn pinionTeeth) }
  else
    { st with minuteHand := angles.minuteAngle, hourHand := angles.hourAngle }

/-- Claim C2: for every date, `getClockAngles` returns
`secondAngle = (s + ms/1000) * 6`, `minuteAngle = (m + s/60 + ms/60000) * 6`,
`hourAngle = (h % 12 + m/60 + s/3600) * 30`; at 10:15:30.000 the minute angle
is exactly 93 and the hour angle exactly 307.75. -/
theorem getClockAngles_formulas_and_fixed_time :
    (∀ hours minutes seconds ms : ℕ,
      getClockAngles hours minutes seconds ms =
        { secondAngle := ((seconds : ℚ) + (ms : ℚ) / 1000) * 6
          minuteAngle := ((minutes : ℚ) + (seconds : ℚ) / 60 + (ms : ℚ) / 60000) * 6
          hourAngle := (((hours % 12 : ℕ) : ℚ) + (minutes : ℚ) / 60 + (seconds : ℚ) / 3600) * 30 }) ∧
    (getClockAngles 10 15 30 0).minuteAngle = 93 ∧
    (getClockAngles 10 15 30 0).hourAngle = 30775 / 100 := by
  refine ⟨fun hours minutes seconds ms => rfl, ?_, ?_⟩ <;> norm_num [getClockAngles]

/-- On a frame whose state is not running, `loop` only updates the two hands. -/
theorem loopStep_of_not_running (a : ClockAngles) (st : WatchState)
    (h : st.running = false) :
    loopStep a st = { st with minuteHand := a.minuteAngle, hourHand := a.hourAngle } := by
  simp [loopStep, h]

/-- Folding any sequence of paused frames preserves the gears, the pinion and
the pinion rotation, and keeps the state paused. -/
theorem foldl_paused (frames : List ClockAngles) (st : WatchState)
    (h : st.running = false) :
    (frames.foldl (fun s a => loopStep a s) st).gears = st.gears ∧
    (frames.foldl (fun s a => loopStep a s) st).pinion = st.pinion ∧
    (frames.foldl (fun s a => loopStep a s) st).pinionRot = st.pinionRot ∧
    (frames.foldl (fun s a => loopStep a s) st).running = false := by
  induction frames generalizing st with
  | nil => exact ⟨rfl, rfl, rfl, h⟩
  | cons a frames ih =>
    have hstep := loopStep_of_not_running a st h
    have h' : (loopStep a st).running = false := by rw [hstep]; exact h
    have := ih (loopStep a st) h'
    simpa [List.foldl_cons, hstep] using this

/-- Claim C3: on a running frame, the pinion's rotation is set to exactly the
minute angle (no smoothing), each gear's target is `-pinionRotation * (P / T)`
with pinion tooth count `P = 10`, and the gear's stored rotation is updated to
`cur + (target - cur) * 0.14` and persisted for the next frame. -/
theorem loopStep_running_frame :
    (∀ (a : ClockAngles) (gs : List GearObj) (p : GearObj) (pr mh hh : ℚ),
      loopStep a ⟨gs, { p with teeth := 10 }, pr, mh, hh, true⟩ =
        ⟨gs.map (gearStep a.minuteAngle 10), { p with teeth := 10 },
          a.minuteAngle, a.minuteAngle, a.hourAngle, true⟩) ∧
    (∀ (pt : ℚ) (g : GearObj), gearStep pt 10 g =
      { g with
          dataRot := some (g.dataRot.getD 0
            + (-pt * (10 / (g.teeth : ℚ)) - g.dataRot.getD 0) * (14/100)) }) := by
  constructor
  · intro a gs p pr mh hh
    simp [loopStep]
  · intro pt g
    rfl

/-- Claim C4: on every frame executed while paused, the gears' stored rotations
and the pinion's rotation are left exactly unchanged (over any number of
consecutive paused frames), while the minute- and hour-hand angles are still
recomputed from the current time and applied on that same frame. -/
theorem loopStep_paused_frames :
    (∀ (hrs mins secs ms : ℕ) (gs : List GearObj) (p : GearObj) (pr mh hh : ℚ),
      loopStep (getClockAngles hrs mins secs ms) ⟨gs, p, pr, mh, hh, false⟩ =
        ⟨gs, p, pr, (getClockAngles hrs mins secs ms).minuteAngle,
          (getClockAngles hrs mins secs ms).hourAngle, false⟩) ∧
    (∀ (frames : List ClockAngles) (gs : List GearObj) (p : GearObj) (pr mh hh : ℚ),
      (frames.foldl (fun s a => loopStep a s) ⟨gs, p, pr, mh, hh, false⟩).gears = gs ∧
      (frames.foldl (fun s a => loopStep a s) ⟨gs, p, pr, mh, hh, false⟩).pinionRot = pr) := by
  constructor
  · intro hrs mins secs ms gs p pr mh hh
    exact loopStep_of_not_running _ _ rfl
  · intro frames gs p pr mh hh
    have h := foldl_paused frames ⟨gs, p, pr, mh, hh, false⟩ rfl
    exact ⟨h.1, h.2.2.1⟩

/-- Claim C8: rebuilding the gear train clears all prior state (the build
result never depends on the previous container contents), a second build
yields the same train as the first, and the built train has the fixed
placements and tooth counts of the configuration table. -/
theorem buildGears_rebuild_idempotent :
    (∀ prior : List GearObj, buildGearsInto prior = buildGearsInto []) ∧
    (∀ prior : List GearObj,
      (buildGearsInto (buildGearsInto prior).1).2 = (buildGearsInto prior).2) ∧
    buildGears.gears.map (fun g => (g.id, g.cx, g.cy, g.teeth)) =
      [("g1", -28, 30, 44), ("g2", 64, 20, 22), ("g3", 38, -82, 14)] ∧
    (buildGears.pinion.cx, buildGears.pinion.cy, buildGears.pinion.teeth) = (0, 0, 10) := by
  refine ⟨fun _ => rfl, fun _ => rfl, ?_, rfl⟩
  norm_num [buildGears, buildFromConfig, gearConfigList, mkGearObj]

/-- Claim C10: when a gear's stored rotation is absent (`data-rot` missing or
non-numeric, as after a (re)build), the smoothing update reads the current
rotation as 0 and therefore persists `0.14 × target`; every gear and the
pinion of a fresh build carry no stored rotation. -/
theorem gearStep_absent_rotation :
    (∀ (pt ptTeeth : ℚ) (g : GearObj),
      (gearStep pt ptTeeth { g with dataRot := none }).dataRot =
        some ((-pt * (ptTeeth / (g.teeth : ℚ))) * (14/100))) ∧
    buildGears.gears.map (fun g => g.dataRot) = [none, none, none] ∧
    buildGears.pinion.dataRot = none := by
  refine ⟨fun pt ptTeeth g => ?_, rfl, rfl⟩
  simp [gearStep, smoothNext, meshTarget]

/-- One smoothing step contracts the distance to the target by the factor
`1 - 0.14 = 0.86`. -/
theorem smoothNext_dist (t c : ℚ) : |smoothNext t c - t| = (43/50) * |c - t| := by
  have h : smoothNext t c - t = (43/50) * (c - t) := by unfold smoothNext; ring
  rw [h, abs_mul, abs_of_pos (show (0:ℚ) < 43/50 by norm_num)]

/-- Iterating the smoothing step against a constant target decays the distance
geometrically with ratio `0.86`. -/
theorem smoothIter_dist (t c : ℚ) (n : ℕ) :
    |smoothIter t c n - t| = (43/50) ^ n * |c - t| := by
  induction n with
  | zero => simp [smoothIter]
  | succ n ih =>
    have hstep : smoothIter t c (n + 1) = smoothNext t (smoothIter t c n) := rfl
    rw [hstep, smoothNext_dist, ih, pow_succ]
    ring

/-- Claim C5: while the target is held constant, the distance of the stored
rotation to the target strictly decreases on every frame on which it is
nonzero, decays geometrically with ratio `0.86`, falls below `0.01` after a
bounded number of frames for every start, and for any start within distance 4
of the target does so within 40 frames (the `≈ 40` frames of the claim for
`α = 0.14`). -/
theorem smoothing_strict_decrease_and_convergence :
    (∀ t c : ℚ, |c - t| ≠ 0 → |smoothNext t c - t| < |c - t|) ∧
    (∀ (t c : ℚ) (n : ℕ), |smoothIter t c n - t| = (43/50) ^ n * |c - t|) ∧
    (∀ t c : ℚ, ∃ N : ℕ, ∀ n : ℕ, N ≤ n → |smoothIter t c n - t| < 1/100) ∧
    (∀ t c : ℚ, |c - t| ≤ 4 → |smoothIter t c 40 - t| < 1/100) := by
  have hlt : (43/50 : ℚ) < 1 := by norm_num
  have hpos : (0:ℚ) < 43/50 := by norm_num
  refine ⟨?_, smoothIter_dist, ?_, ?_⟩
  · intro t c h
    have hd : 0 < |c - t| := lt_of_le_of_ne (abs_nonneg _) (Ne.symm h)
    rw [smoothNext_dist]
    nlinarith
  · intro t c
    rcases eq_or_ne (|c - t|) 0 with hd | hd
    · refine ⟨0, fun n _ => ?_⟩
      rw [smoothIter_dist, hd, mul_zero]
      norm_num
    · have hdpos : 0 < |c - t| := lt_of_le_of_ne (abs_nonneg _) (Ne.symm hd)
      obtain ⟨N, hN⟩ := exists_pow_lt_of_lt_one
        (div_pos (show (0:ℚ) < 1/100 by norm_num) hdpos) hlt
      refine ⟨N, fun n hn => ?_⟩
      rw [smoothIter_dist]
      have hmono : (43/50 : ℚ) ^ n ≤ (43/50) ^ N :=
        pow_le_pow_of_le_one (le_of_lt hpos) (le_of_lt hlt) hn
      calc (43/50 : ℚ) ^ n * |c - t| ≤ (43/50) ^ N * |c - t| :=
            mul_le_mul_of_nonneg_right hmono (abs_nonneg _)
        _ < (1/100) / |c - t| * |c - t| :=
            mul_lt_mul_of_pos_right hN hdpos
        _ = 1/100 := div_mul_cancel₀ _ (ne_of_gt hdpos)
  · intro t c hc
    rw [smoothIter_dist]
    have hpow : (43/50 : ℚ) ^ 40 < 1/400 := by norm_num
    calc (43/50 : ℚ) ^ 40 * |c - t| ≤ (43/50) ^ 40 * 4 :=
          mul_le_mul_of_nonneg_left hc (by positivity)
      _ < (1/400) * 4 := by nlinarith
      _ = 1/100 := by norm_num

/-- Concrete instance of the smoothing-convergence theorem: starting distance
1 from target 0, the first step strictly decreases the distance and 40 frames
bring it below `0.01`. -/
theorem smoothing_convergence_witness :
    (|(1:ℚ) - 0| ≠ 0 ∧ |smoothNext 0 1 - 0| < |(1:ℚ) - 0|) ∧
    (|(1:ℚ) - 0| ≤ 4 ∧ |smoothIter 0 1 40 - 0| < 1/100) :=
  ⟨⟨by norm_num, smoothing_strict_decrease_and_convergence.1 0 1 (by norm_num)⟩,
   ⟨by norm_num, smoothing_strict_decrease_and_convergence.2.2.2 0 1 (by norm_num)⟩⟩

/-- Counterexample to claim C7 as stated: at pinion rotation 93 (nonzero), the
mesh targets of the 44-tooth and the 22-tooth gears are both negative — two
gears driven from the same pinion have the SAME rotation sign, not different
signs. -/
theorem meshed_gears_same_sign_counterexample :
    (93 : ℚ) ≠ 0 ∧ meshTarget 93 10 44 < 0 ∧ meshTarget 93 10 22 < 0 := by
  norm_num [meshTarget]

/-- Claim C7 (amended): every gear driven from the pinion has a mesh-target
rotation whose sign is opposite to the pinion's rotation sign (hence any two
driven gears agree in sign with each other and differ from the pinion), and
the target is zero exactly when the pinion rotation is zero. -/
theorem meshTarget_sign_opposite_pinion (p : ℚ) (T : ℕ) (hT : 0 < T) :
    (0 < p → meshTarget p 10 T < 0) ∧
    (p < 0 → 0 < meshTarget p 10 T) ∧
    (p = 0 → meshTarget p 10 T = 0) := by
  have hT' : (0:ℚ) < (T:ℚ) := by exact_mod_cast hT
  have hratio : (0:ℚ) < 10 / (T:ℚ) := by positivity
  unfold meshTarget
  refine ⟨fun hp => ?_, fun hp => ?_, fun hp => by simp [hp]⟩
  · nlinarith
  · nlinarith

/-- Concrete instance of the amended C7 theorem: pinion rotation 93 drives the
44-tooth gear to a negative target. -/
theorem meshTarget_sign_witness :
    0 < 44 ∧ 0 < (93:ℚ) ∧ meshTarget 93 10 44 < 0 :=
  ⟨by norm_num, by norm_num,
    (meshTarget_sign_opposite_pinion 93 44 (by norm_num)).1 (by norm_num)⟩

/-- Claim C6, evaluated at the failing input: feeding a zero tooth count
through the build step produces a degenerate gear object (and `makeGearPath`
an empty vertex list) with no error outcome of any kind — the builder's result
type has no error case and no tooth-count validation exists anywhere in the
build or in the gear-ratio step. -/
theorem build_accepts_zero_tooth_count :
    buildFromConfig [{ id := "z", teeth := 0, r := 8, toothDepth := 4, cx := 0, cy := 0 }] =
      [{ id := "z", teeth := 0, r := 8, toothDepth := 4, centerRadius := 8,
         cx := 0, cy := 0, dataRot := none }] ∧
    makeGearPathPolar 0 8 4 = [] := by
  constructor
  · simp only [buildFromConfig, List.map_cons, List.map_nil, mkGearObj, centerRadiusOf]
    norm_num [round_eq]
  · rfl

/-- Claim C1: for `toothCount ≥ 3`, `innerRadius > 0`, `toothDepth ≥ 0`, the
gear generator produces exactly `4 × toothCount` vertices; vertex `i` carries
the angle fraction `i / (4·toothCount)` of a full turn (radian measure
`2π·i / (4·toothCount)`) and the radius classified by `i mod 4` (flank
`innerRadius + 0.45·toothDepth`, tip `innerRadius + toothDepth`, root
`0.68·innerRadius`); every vertex radius is at most `innerRadius + toothDepth`
and that maximum is attained. -/
theorem makeGearPath_vertex_structure (T : ℕ) (r td : ℚ)
    (hT : 3 ≤ T) (hr : 0 < r) (htd : 0 ≤ td) :
    (makeGearPathPolar T r td).length = 4 * T ∧
    (∀ i : ℕ, i < 4 * T →
      (makeGearPathPolar T r td)[i]? =
        some (gearRadius r td i, (i : ℚ) / ((T * 4 : ℕ) : ℚ))) ∧
    (∀ i : ℕ,
      ((i % 4 = 0 ∨ i % 4 = 2) → gearRadius r td i = r + td * (45/100)) ∧
      (i % 4 = 1 → gearRadius r td i = r + td) ∧
      (i % 4 = 3 → gearRadius r td i = r * (68/100))) ∧
    (∀ i : ℕ, vertexTheta ((i : ℚ) / ((T * 4 : ℕ) : ℚ)) =
      2 * Real.pi * (i : ℝ) / (4 * (T : ℝ))) ∧
    (∀ v ∈ makeGearPathPolar T r td, v.1 ≤ r + td) ∧
    (∃ v ∈ makeGearPathPolar T r td, v.1 = r + td) := by
  refine ⟨?_, ?_, ?_, ?_, ?_, ?_⟩
  · simp [makeGearPathPolar, Nat.mul_comm]
  · intro i hi
    have hi' : i < T * 4 := by omega
    simp [makeGearPathPolar, List.getElem?_map, List.getElem?_range, hi']
  · intro i
    refine ⟨fun h => ?_, fun h => ?_, fun h => ?_⟩
    · rcases h with h | h <;> simp [gearRadius, h]
    · simp [gearRadius, h]
    · simp [gearRadius, h]
  · intro i
    unfold vertexTheta
    push_cast
    ring
  · intro v hv
    simp only [makeGearPathPolar, List.mem_map, List.mem_range] at hv
    obtain ⟨i, _, hvi⟩ := hv
    rw [← hvi]
    show gearRadius r td i ≤ r + td
    unfold gearRadius
    split_ifs <;> linarith
  · refine ⟨(gearRadius r td 1, (1 : ℚ) / ((T * 4 : ℕ) : ℚ)), ?_, by simp [gearRadius]⟩
    simp only [makeGearPathPolar, List.mem_map, List.mem_range]
    exact ⟨1, by omega, by norm_num⟩

/-- Concrete instance of the C1 theorem at `toothCount = 3`, `innerRadius = 1`,
`toothDepth = 1`: the generator emits `4 × 3` vertices. -/
theorem makeGearPath_vertex_structure_witness :
    (3 ≤ 3 ∧ (0:ℚ) < 1 ∧ (0:ℚ) ≤ 1) ∧ (makeGearPathPolar 3 1 1).length = 4 * 3 :=
  ⟨⟨by norm_num, by norm_num, by norm_num⟩,
    (makeGearPath_vertex_structure 3 1 1 (by norm_num) (by norm_num) (by norm_num)).1⟩

/-- `toFixed(2)` lands on the `1/100` grid and moves a value by at most
`1/200`. -/
theorem toFixed2_spec (x : ℝ) :
    (∃ k : ℤ, toFixed2 x = (k : ℝ) / 100) ∧ |toFixed2 x - x| ≤ 1/100 := by
  constructor
  · exact ⟨round (x * 100), rfl⟩
  · have h := abs_sub_round (x * 100)
    have hrw : toFixed2 x - x = (((round (x * 100) : ℤ) : ℝ) - x * 100) / 100 := by
      unfold toFixed2
      ring
    rw [hrw, abs_div, abs_of_pos (show (0:ℝ) < 100 by norm_num)]
    rw [abs_sub_comm] at h
    linarith

/-- Claim C9: each emitted coordinate of a gear vertex is the true coordinate
`radius·cos θ` (resp. `radius·sin θ`) rounded to two decimal places: the
emitted value lies on the `0.01`-unit grid and differs from the true real
value by at most `0.01`. -/
theorem emitted_vertex_coordinates_quantized (rho frac : ℚ) :
    (∃ k : ℤ, toFixed2 (vertexXY rho frac).1 = (k : ℝ) / 100) ∧
    |toFixed2 (vertexXY rho frac).1 - (vertexXY rho frac).1| ≤ 1/100 ∧
    (∃ k : ℤ, toFixed2 (vertexXY rho frac).2 = (k : ℝ) / 100) ∧
    |toFixed2 (vertexXY rho frac).2 - (vertexXY rho frac).2| ≤ 1/100 :=
  ⟨(toFixed2_spec _).1, (toFixed2_spec _).2, (toFixed2_spec _).1, (toFixed2_spec _).2⟩
